import Mathlib

/-!
Verification development for the cervical-cancer risk Streamlit app
(`src/app.py`).  The app is glue code around an opaque trained pipeline:

* `load_pipeline` loads a serialized pipeline from disk (cached by
  `st.cache_resource`), displaying error messages and returning `None` on
  failure;
* `perform_feature_engineering` takes a single-row pandas DataFrame and adds
  four derived columns (`Age_Group`, `First_Sex_Age`, `HPV_Exposure_Duration`,
  `Pregnancy_Density`);
* `main` builds a single-row DataFrame from the sidebar form (28 numeric
  fields, default 0.0) and calls `pipeline.predict` / `predict_proba`.

Shallow embedding choices:

* A single-row DataFrame is an ordered association list
  `List (String × Val)`: column order matters, there is exactly one row, so a
  column is a name/value pair.  `Val` separates numeric cells (modelled as
  `ℚ`; the app works with Python floats which we idealize as rationals) from
  categorical cells (`pd.cut` output, `Option String` with `none` for the NaN
  / missing category).
* Column read `df[c]` is `getCol` (first match, `KeyError` when absent, as in
  pandas with unique columns).  Column write `df[c] = v` is `setCol`: it
  overwrites an existing column in place, otherwise appends at the end —
  exactly pandas assignment semantics.
* Fallible pandas operations run in `Except PdError`.
-/

/-- Cell value of the single-row DataFrame: numeric (Python float, idealized
as `ℚ`) or categorical (`pd.cut` output; `none` is the NaN missing category). -/
inductive Val where
  | num (q : ℚ)
  | cat (c : Option String)
  deriving DecidableEq

/-- Errors raised by pandas column access in `perform_feature_engineering`:
`keyError c` for a missing column `c` (Python `KeyError`), `typeError c` for a
non-numeric column where a number is needed. -/
inductive PdError where
  | keyError (col : String)
  | typeError (col : String)
  deriving DecidableEq

/-- A single-row DataFrame: ordered list of (column name, cell value). -/
abbrev DataRow := List (String × Val)

/-- `df[c]` for a single-row frame: value of the first column named `c`,
`KeyError c` when absent. -/
def getCol : DataRow → String → Except PdError Val
  | [], c => .error (.keyError c)
  | p :: t, c => if p.1 = c then .ok p.2 else getCol t c

/-- Does the frame have a column named `c`? -/
def hasCol : DataRow → String → Bool
  | [], _ => false
  | p :: t, c => p.1 = c || hasCol t c

/-- Overwrite every column named `c` with value `v` (pandas assignment to an
existing column keeps its position). -/
def replaceCol : DataRow → String → Val → DataRow
  | [], _, _ => []
  | p :: t, c, v => (if p.1 = c then (c, v) else p) :: replaceCol t c v

/-- `df[c] = v`: overwrite the column in place when it exists, otherwise
append it at the end (pandas assignment semantics). -/
def setCol (df : DataRow) (c : String) (v : Val) : DataRow :=
  if hasCol df c then replaceCol df c v else df ++ [(c, v)]

/-- Numeric read of column `c`: the cell must exist and be numeric. -/
def getNum (df : DataRow) (c : String) : Except PdError ℚ :=
  match getCol df c with
  | .ok (Val.num q) => .ok q
  | .ok (Val.cat _) => .error (.typeError c)
  | .error e => .error e

/-- `pd.cut(age, bins=[0, 20, 30, 40, 50, 100], labels=[...])` on one cell:
right-closed bins `(0,20], (20,30], (30,40], (40,50], (50,100]`; out-of-range
values give the missing category `none`. -/
def ageGroup (age : ℚ) : Option String :=
  if 0 < age ∧ age ≤ 20 then some "Teen"
  else if 20 < age ∧ age ≤ 30 then some "20s"
  else if 30 < age ∧ age ≤ 40 then some "30s"
  else if 40 < age ∧ age ≤ 50 then some "40s"
  else if 50 < age ∧ age ≤ 100 then some "50+"
  else none

/-- `Series.clip(lower=lo)` on one cell. -/
def clipLower (x lo : ℚ) : ℚ := max x lo

/-- `perform_feature_engineering` from `src/app.py` (lines 33-53): copies the
input frame and adds the four derived columns, reading the source columns in
the order the Python lines evaluate them (line 42 reads `Age`; line 48 reads
`First sexual intercourse`; line 49 reads `Age` then `First sexual
intercourse`; line 51 reads `Num of pregnancies` then `Age`). -/
def perform_feature_engineering (df : DataRow) : Except PdError DataRow :=
  match getNum df "Age" with
  | .error e => .error e
  | .ok ageCut =>
    let dfe1 := setCol df "Age_Group" (Val.cat (ageGroup ageCut))
    match getNum dfe1 "First sexual intercourse" with
    | .error e => .error e
    | .ok fsx =>
      let dfe2 := setCol dfe1 "First_Sex_Age" (Val.num fsx)
      match getNum dfe2 "Age" with
      | .error e => .error e
      | .ok ageDur =>
        match getNum dfe2 "First sexual intercourse" with
        | .error e => .error e
        | .ok fsxDur =>
          let dfe3 := setCol dfe2 "HPV_Exposure_Duration" (Val.num (ageDur - fsxDur))
          match getNum dfe3 "Num of pregnancies" with
          | .error e => .error e
          | .ok pregs =>
            match getNum dfe3 "Age" with
            | .error e => .error e
            | .ok ageDens =>
              .ok (setCol dfe3 "Pregnancy_Density"
                    (Val.num (pregs / clipLower (ageDens - 12) 1)))

/-- The 28 raw form fields of `main` (`input_feature_list`, lines 82-90),
in form order. -/
def input_feature_list : List String :=
  ["Age", "Number of sexual partners", "First sexual intercourse",
   "Num of pregnancies", "Smokes", "Smokes (years)", "Smokes (packs/year)",
   "Hormonal Contraceptives", "Hormonal Contraceptives (years)", "IUD",
   "IUD (years)", "STDs", "STDs (number)", "STDs:condylomatosis",
   "STDs:cervical condylomatosis", "STDs:vaginal condylomatosis",
   "STDs:vulvo-perineal condylomatosis", "STDs:syphilis",
   "STDs:pelvic inflammatory disease", "STDs:genital herpes",
   "STDs:molluscum contagiosum", "STDs:AIDS", "STDs:HIV", "STDs:Hepatitis B",
   "STDs:HPV", "STDs: Number of diagnosis", "STDs: Time since first diagnosis",
   "STDs: Time since last diagnosis"]

/-- The four derived column names, in the order the code appends them. -/
def derived_names : List String :=
  ["Age_Group", "First_Sex_Age", "HPV_Exposure_Duration", "Pregnancy_Density"]

/-- The full engineered column sequence the builder produces for a
well-formed form submission: the raw form columns followed by the derived
columns.  This is the `required_columns` sequence of the spec as realized by
the code. -/
def required_columns : List String := input_feature_list ++ derived_names

/-- `pd.DataFrame([user_input])` in `main` (line 110): the raw input dict,
an ordered list of (field name, numeric value), becomes a single-row frame. -/
def rawToDataRow (raw : List (String × ℚ)) : DataRow :=
  raw.map (fun p => (p.1, Val.num p.2))

/-- The builder of the spec as realized by `main` (lines 108-113): raw input
dict → single-row DataFrame → `perform_feature_engineering`. -/
def build (raw : List (String × ℚ)) : Except PdError DataRow :=
  perform_feature_engineering (rawToDataRow raw)

/-- The `user_input` dict produced by the sidebar form: one value per field
of `input_feature_list`, in form order. -/
def form_raw_input (vals : String → ℚ) : List (String × ℚ) :=
  input_feature_list.map (fun n => (n, vals n))

/-- The engineered frame as an explicit `setCol` chain: what
`perform_feature_engineering` returns when the three source columns hold the
numbers `a` (`Age`), `f` (`First sexual intercourse`) and `p`
(`Num of pregnancies`). -/
def engineer (df : DataRow) (a f p : ℚ) : DataRow :=
  setCol
    (setCol
      (setCol
        (setCol df "Age_Group" (Val.cat (ageGroup a)))
        "First_Sex_Age" (Val.num f))
      "HPV_Exposure_Duration" (Val.num (a - f)))
    "Pregnancy_Density" (Val.num (p / clipLower (a - 12) 1))

/-! ### Artifact loader and main loop (`load_pipeline`, `main`) -/

/-- Outcome of `joblib.load`: the deserialized pipeline, a
`FileNotFoundError`, or any other exception (with its message). -/
inductive LoadErr where
  | fileNotFound
  | other (msg : String)

/-- The opaque trained pipeline: its `predict` returns a class label and its
`predict_proba` a probability pair, both pure functions of the input frame
(scikit-learn inference is deterministic; the artifact is read-only). -/
structure Pipeline where
  predict : DataRow → ℤ
  predict_proba : DataRow → ℚ × ℚ

/-- The disk, seen through `joblib.load`: what loading each path yields. -/
abbrev FileSystem := String → Except LoadErr Pipeline

/-- `PIPELINE_FILEPATH` from `main` (line 62). -/
def PIPELINE_FILEPATH : String := "optimized_cervical_cancer_model.pkl"

/-- Message of line 26 (Python wraps the path in single quotes, elided
here): the missing-file error names the path. -/
def msg_not_found (filepath : String) : String :=
  "Error: File model " ++ filepath ++ " tidak ditemukan."

/-- Message of line 27. -/
def msg_check_root : String :=
  "Pastikan file .pkl berada di root direktori repositori Anda."

/-- Message of line 30. -/
def msg_other (e : String) : String :=
  "Terjadi kesalahan saat memuat model: " ++ e

/-- `load_pipeline` from `src/app.py` (lines 16-31), one invocation of the
undecorated body: try `joblib.load`; on `FileNotFoundError` display two
error messages (naming the path) and return `None`; on any other exception
display one message and return `None`.  Result: the returned handle (or
`None`) together with the list of displayed error messages. -/
def load_pipeline (fs : FileSystem) (filepath : String) :
    Option Pipeline × List String :=
  match fs filepath with
  | .ok p => (some p, [])
  | .error .fileNotFound => (none, [msg_not_found filepath, msg_check_root])
  | .error (.other e) => (none, [msg_other e])

/-- Process-wide cache state for `st.cache_resource`: the memo table keyed
by the argument, plus a counter of how many times the underlying file was
actually deserialized. -/
structure CacheState where
  entries : List (String × (Option Pipeline × List String))
  loads : Nat

/-- The fresh state at process start: nothing cached, nothing loaded. -/
def emptyCache : CacheState := ⟨[], 0⟩

/-- First cache entry for a key, if any. -/
def lookupCache : List (String × (Option Pipeline × List String)) → String →
    Option (Option Pipeline × List String)
  | [], _ => none
  | e :: t, k => if e.1 = k then some e.2 else lookupCache t k

/-- Modelled from the spec: the `@st.cache_resource` decorator on
`load_pipeline` (line 16) is Streamlit library code absent from this
repository; per the spec it gives "exactly one load per process lifetime
(subsequent calls return the cached handle; no re-read of the file unless
the process restarts)".  A call first consults the memo table; on a hit it
returns the cached result unchanged, on a miss it runs the body once
(counted in `loads`) and memoizes the result. -/
def cached_load_pipeline (fs : FileSystem) (s : CacheState)
    (filepath : String) : (Option Pipeline × List String) × CacheState :=
  match lookupCache s.entries filepath with
  | some r => (r, s)
  | none =>
    let r := load_pipeline fs filepath
    (r, ⟨s.entries ++ [(filepath, r)], s.loads + 1⟩)

/-- `n` successive calls of the cached loader with the same path, collecting
each call's result. -/
def repeatLoads (fs : FileSystem) (filepath : String) :
    CacheState → Nat → List (Option Pipeline × List String) × CacheState
  | s, 0 => ([], s)
  | s, n + 1 =>
    let rs := cached_load_pipeline fs s filepath
    let rest := repeatLoads fs filepath rs.2 n
    (rs.1 :: rest.1, rest.2)

/-- One form submission processed by `main` (lines 108-119): load the
pipeline through the cache, build the engineered frame from the form values,
then call `predict` and `predict_proba`.  `.ok none` means no prediction was
made (pipeline failed to load); an uncaught feature-engineering exception
propagates as `.error` (line 113 sits outside the `try` block). -/
def processSubmit (fs : FileSystem) (s : CacheState) (vals : String → ℚ) :
    Except PdError (Option (ℤ × (ℚ × ℚ))) × CacheState :=
  let rs := cached_load_pipeline fs s PIPELINE_FILEPATH
  match rs.1.1 with
  | none => (.ok none, rs.2)
  | some p =>
    match build (form_raw_input vals) with
    | .error e => (.error e, rs.2)
    | .ok rec => (.ok (some (p.predict rec, p.predict_proba rec)), rs.2)

/-- The engineered record `main` passes to `predict` for a form submission
with values `vals`: the builder applied to the full form input. -/
def form_engineered (vals : String → ℚ) : DataRow :=
  engineer (rawToDataRow (form_raw_input vals)) (vals "Age")
    (vals "First sexual intercourse") (vals "Num of pregnancies")

/-! ### Concrete inputs used by witnesses and counterexamples -/

/-- A concrete stand-in artifact for witnesses: label 0 with a fixed
probability pair. -/
def constPipeline : Pipeline :=
  { predict := fun _ => 0, predict_proba := fun _ => (7 / 10, 3 / 10) }

/-- The sidebar form with every field left at its default `0.0`. -/
def zeroVals : String → ℚ := fun _ => 0

/-- A raw input holding every required raw column (in form order) plus one
extra field not in `required_columns`. -/
def raw_with_extra : List (String × ℚ) :=
  form_raw_input zeroVals ++ [("Extra", 7)]

/-- A raw input omitting the required raw column `Smokes` (all other form
fields present with default values). -/
def raw_missing_smokes : List (String × ℚ) :=
  (input_feature_list.filter (fun n => n ≠ "Smokes")).map (fun n => (n, (0 : ℚ)))

/-- An input frame that already carries a column named `Age_Group`
(numeric), together with the three columns feature engineering reads. -/
def df_age_group_clash : DataRow :=
  [("Age_Group", Val.num 5), ("Age", Val.num 25),
   ("First sexual intercourse", Val.num 20), ("Num of pregnancies", Val.num 1)]

/-! ### Basic lemmas about column access and assignment -/

theorem getCol_replaceCol_ne (df : DataRow) (c m : String) (v : Val)
    (h : c ≠ m) : getCol (replaceCol df m v) c = getCol df c := by
  induction df with
  | nil => rfl
  | cons p t ih =>
    by_cases hp : p.1 = m
    · simp [replaceCol, getCol, hp, Ne.symm h, ih]
    · simp [replaceCol, getCol, hp, ih]

theorem getCol_append_single_ne (df : DataRow) (c m : String) (v : Val)
    (h : c ≠ m) : getCol (df ++ [(m, v)]) c = getCol df c := by
  induction df with
  | nil => simp [getCol, Ne.symm h]
  | cons p t ih =>
    by_cases hp : p.1 = c
    · simp [getCol, hp]
    · simp [getCol, hp, ih]

theorem getCol_setCol_ne (df : DataRow) (c m : String) (v : Val)
    (h : c ≠ m) : getCol (setCol df m v) c = getCol df c := by
  unfold setCol
  by_cases hm : hasCol df m
  · simp [hm, getCol_replaceCol_ne df c m v h]
  · simp [hm, getCol_append_single_ne df c m v h]

theorem getCol_replaceCol_self (df : DataRow) (m : String) (v : Val)
    (h : hasCol df m = true) : getCol (replaceCol df m v) m = .ok v := by
  induction df with
  | nil => simp [hasCol] at h
  | cons p t ih =>
    by_cases hp : p.1 = m
    · simp [replaceCol, getCol, hp]
    · simp [hasCol, hp] at h
      simp [replaceCol, getCol, hp, ih h]

theorem getCol_not_has (df : DataRow) (m : String)
    (h : hasCol df m = false) : getCol df m = .error (.keyError m) := by
  induction df with
  | nil => rfl
  | cons p t ih =>
    simp [hasCol] at h
    simp [getCol, h.1, ih h.2]

theorem getCol_append_single_self (df : DataRow) (m : String) (v : Val)
    (h : hasCol df m = false) : getCol (df ++ [(m, v)]) m = .ok v := by
  induction df with
  | nil => simp [getCol]
  | cons p t ih =>
    simp [hasCol] at h
    simp [getCol, h.1, ih h.2]

theorem getCol_setCol_self (df : DataRow) (m : String) (v : Val) :
    getCol (setCol df m v) m = .ok v := by
  unfold setCol
  by_cases hm : hasCol df m
  · simp [hm, getCol_replaceCol_self df m v hm]
  · simp [hm, getCol_append_single_self df m v (by simpa using hm)]

theorem getNum_setCol_ne (df : DataRow) (c m : String) (v : Val)
    (h : c ≠ m) : getNum (setCol df m v) c = getNum df c := by
  unfold getNum
  rw [getCol_setCol_ne df c m v h]

/-! ### Characterization of `perform_feature_engineering` on well-formed input -/

theorem perform_spec (df : DataRow) (a f p : ℚ)
    (hA : getNum df "Age" = .ok a)
    (hF : getNum df "First sexual intercourse" = .ok f)
    (hP : getNum df "Num of pregnancies" = .ok p) :
    perform_feature_engineering df = .ok (engineer df a f p) := by
  have h1 : getNum (setCol df "Age_Group" (Val.cat (ageGroup a)))
      "First sexual intercourse" = .ok f := by
    rw [getNum_setCol_ne _ _ _ _ (by decide)]; exact hF
  have h2 : getNum (setCol (setCol df "Age_Group" (Val.cat (ageGroup a)))
      "First_Sex_Age" (Val.num f)) "Age" = .ok a := by
    rw [getNum_setCol_ne _ _ _ _ (by decide),
        getNum_setCol_ne _ _ _ _ (by decide)]; exact hA
  have h3 : getNum (setCol (setCol df "Age_Group" (Val.cat (ageGroup a)))
      "First_Sex_Age" (Val.num f)) "First sexual intercourse" = .ok f := by
    rw [getNum_setCol_ne _ _ _ _ (by decide)]; exact h1
  have h4 : getNum (setCol (setCol (setCol df "Age_Group" (Val.cat (ageGroup a)))
      "First_Sex_Age" (Val.num f)) "HPV_Exposure_Duration" (Val.num (a - f)))
      "Num of pregnancies" = .ok p := by
    rw [getNum_setCol_ne _ _ _ _ (by decide),
        getNum_setCol_ne _ _ _ _ (by decide),
        getNum_setCol_ne _ _ _ _ (by decide)]; exact hP
  have h5 : getNum (setCol (setCol (setCol df "Age_Group" (Val.cat (ageGroup a)))
      "First_Sex_Age" (Val.num f)) "HPV_Exposure_Duration" (Val.num (a - f)))
      "Age" = .ok a := by
    rw [getNum_setCol_ne _ _ _ _ (by decide)]; exact h2
  unfold perform_feature_engineering
  rw [hA]
  simp only []
  rw [h1]
  simp only []
  rw [h2, h3]
  simp only []
  rw [h4, h5]
  rfl

/-! ### Column-name bookkeeping lemmas -/

theorem map_fst_replaceCol (df : DataRow) (m : String) (v : Val) :
    (replaceCol df m v).map Prod.fst = df.map Prod.fst := by
  induction df with
  | nil => rfl
  | cons p t ih =>
    by_cases hp : p.1 = m
    · simp [replaceCol, hp, ih]
    · simp [replaceCol, hp, ih]

theorem hasCol_iff_mem (df : DataRow) (n : String) :
    hasCol df n = true ↔ n ∈ df.map Prod.fst := by
  induction df with
  | nil => simp [hasCol]
  | cons p t ih =>
    simp [hasCol, ih]
    constructor
    · rintro (h | h)
      · exact Or.inl h.symm
      · exact Or.inr h
    · rintro (h | h)
      · exact Or.inl h.symm
      · exact Or.inr h

theorem map_fst_setCol_has (df : DataRow) (m : String) (v : Val)
    (h : hasCol df m = true) :
    (setCol df m v).map Prod.fst = df.map Prod.fst := by
  simp [setCol, h, map_fst_replaceCol]

theorem map_fst_setCol_not_has (df : DataRow) (m : String) (v : Val)
    (h : hasCol df m = false) :
    (setCol df m v).map Prod.fst = df.map Prod.fst ++ [m] := by
  simp [setCol, h]

theorem mem_map_fst_setCol (df : DataRow) (m n : String) (v : Val)
    (h : n ∈ df.map Prod.fst) : n ∈ (setCol df m v).map Prod.fst := by
  by_cases hm : hasCol df m
  · rw [map_fst_setCol_has df m v hm]; exact h
  · rw [map_fst_setCol_not_has df m v (by simpa using hm)]
    exact List.mem_append_left _ h

theorem hasCol_setCol_ne (df : DataRow) (m n : String) (v : Val)
    (h : n ≠ m) : hasCol (setCol df m v) n = hasCol df n := by
  have hmem : n ∈ (setCol df m v).map Prod.fst ↔ n ∈ df.map Prod.fst := by
    by_cases hm : hasCol df m
    · rw [map_fst_setCol_has df m v hm]
    · rw [map_fst_setCol_not_has df m v (by simpa using hm)]
      simp [h]
  cases hdf : hasCol df n with
  | true => exact (hasCol_iff_mem _ n).mpr (hmem.mpr ((hasCol_iff_mem df n).mp hdf))
  | false =>
    have hd : n ∉ df.map Prod.fst := fun hx => by
      have hb := (hasCol_iff_mem df n).mpr hx
      rw [hdf] at hb
      cases hb
    have h2 : n ∉ (setCol df m v).map Prod.fst := fun hx => hd (hmem.mp hx)
    cases hset : hasCol (setCol df m v) n with
    | false => rfl
    | true => exact absurd ((hasCol_iff_mem _ n).mp hset) h2

theorem map_fst_rawToDataRow (raw : List (String × ℚ)) :
    (rawToDataRow raw).map Prod.fst = raw.map Prod.fst := by
  induction raw with
  | nil => rfl
  | cons p t ih =>
    simp only [rawToDataRow, List.map_cons] at ih ⊢
    rw [ih]

theorem getCol_of_not_mem (df : DataRow) (c : String)
    (h : c ∉ df.map Prod.fst) : getCol df c = .error (.keyError c) := by
  apply getCol_not_has
  by_contra hcon
  exact h ((hasCol_iff_mem df c).mp (by simpa using hcon))

theorem getNum_of_not_mem (df : DataRow) (c : String)
    (h : c ∉ df.map Prod.fst) : getNum df c = .error (.keyError c) := by
  unfold getNum
  rw [getCol_of_not_mem df c h]

/-! ### Projections of the engineered frame -/

theorem getCol_engineer_density (df : DataRow) (a f p : ℚ) :
    getCol (engineer df a f p) "Pregnancy_Density" =
      .ok (Val.num (p / clipLower (a - 12) 1)) :=
  getCol_setCol_self _ _ _

theorem getCol_engineer_hpv (df : DataRow) (a f p : ℚ) :
    getCol (engineer df a f p) "HPV_Exposure_Duration" = .ok (Val.num (a - f)) := by
  unfold engineer
  rw [getCol_setCol_ne _ _ _ _ (by decide)]
  exact getCol_setCol_self _ _ _

theorem getCol_engineer_first_sex (df : DataRow) (a f p : ℚ) :
    getCol (engineer df a f p) "First_Sex_Age" = .ok (Val.num f) := by
  unfold engineer
  rw [getCol_setCol_ne _ _ _ _ (by decide), getCol_setCol_ne _ _ _ _ (by decide)]
  exact getCol_setCol_self _ _ _

theorem getCol_engineer_age_group (df : DataRow) (a f p : ℚ) :
    getCol (engineer df a f p) "Age_Group" = .ok (Val.cat (ageGroup a)) := by
  unfold engineer
  rw [getCol_setCol_ne _ _ _ _ (by decide), getCol_setCol_ne _ _ _ _ (by decide),
      getCol_setCol_ne _ _ _ _ (by decide)]
  exact getCol_setCol_self _ _ _

theorem getCol_engineer_of_not_derived (df : DataRow) (a f p : ℚ) (n : String)
    (h : n ∉ derived_names) : getCol (engineer df a f p) n = getCol df n := by
  simp only [derived_names, List.mem_cons, List.not_mem_nil, or_false,
    not_or] at h
  obtain ⟨h1, h2, h3, h4⟩ := h
  unfold engineer
  rw [getCol_setCol_ne _ _ _ _ h4, getCol_setCol_ne _ _ _ _ h3,
      getCol_setCol_ne _ _ _ _ h2, getCol_setCol_ne _ _ _ _ h1]

theorem mem_map_fst_engineer (df : DataRow) (a f p : ℚ) (n : String)
    (h : n ∈ df.map Prod.fst) : n ∈ (engineer df a f p).map Prod.fst :=
  mem_map_fst_setCol _ _ _ _ (mem_map_fst_setCol _ _ _ _
    (mem_map_fst_setCol _ _ _ _ (mem_map_fst_setCol _ _ _ _ h)))

theorem map_fst_engineer_fresh (df : DataRow) (a f p : ℚ)
    (h : ∀ m ∈ derived_names, m ∉ df.map Prod.fst) :
    (engineer df a f p).map Prod.fst = df.map Prod.fst ++ derived_names := by
  have hAG : "Age_Group" ∉ df.map Prod.fst := h _ (by decide)
  have hFS : "First_Sex_Age" ∉ df.map Prod.fst := h _ (by decide)
  have hHPV : "HPV_Exposure_Duration" ∉ df.map Prod.fst := h _ (by decide)
  have hPD : "Pregnancy_Density" ∉ df.map Prod.fst := h _ (by decide)
  have noHas : ∀ m : String, m ∉ df.map Prod.fst → hasCol df m = false := by
    intro m hm
    cases hcase : hasCol df m with
    | false => rfl
    | true => exact absurd ((hasCol_iff_mem df m).mp hcase) hm
  unfold engineer
  have e1 := map_fst_setCol_not_has df "Age_Group" (Val.cat (ageGroup a))
    (noHas _ hAG)
  have hasFS : hasCol (setCol df "Age_Group" (Val.cat (ageGroup a)))
      "First_Sex_Age" = false := by
    cases hcase : hasCol (setCol df "Age_Group" (Val.cat (ageGroup a)))
        "First_Sex_Age" with
    | false => rfl
    | true =>
      have hm := (hasCol_iff_mem _ _).mp hcase
      rw [e1] at hm
      rcases List.mem_append.mp hm with hin | hin
      · exact absurd hin hFS
      · exact absurd hin (by decide)
  have e2 := map_fst_setCol_not_has _ "First_Sex_Age" (Val.num f) hasFS
  rw [e1] at e2
  have hasHPV : hasCol (setCol (setCol df "Age_Group" (Val.cat (ageGroup a)))
      "First_Sex_Age" (Val.num f)) "HPV_Exposure_Duration" = false := by
    cases hcase : hasCol (setCol (setCol df "Age_Group" (Val.cat (ageGroup a)))
        "First_Sex_Age" (Val.num f)) "HPV_Exposure_Duration" with
    | false => rfl
    | true =>
      have hm := (hasCol_iff_mem _ _).mp hcase
      rw [e2] at hm
      rcases List.mem_append.mp hm with hin | hin
      · rcases List.mem_append.mp hin with hin2 | hin2
        · exact absurd hin2 hHPV
        · exact absurd hin2 (by decide)
      · exact absurd hin (by decide)
  have e3 := map_fst_setCol_not_has _ "HPV_Exposure_Duration"
    (Val.num (a - f)) hasHPV
  rw [e2] at e3
  have hasPD : hasCol (setCol (setCol (setCol df "Age_Group"
      (Val.cat (ageGroup a))) "First_Sex_Age" (Val.num f))
      "HPV_Exposure_Duration" (Val.num (a - f))) "Pregnancy_Density" = false := by
    cases hcase : hasCol (setCol (setCol (setCol df "Age_Group"
        (Val.cat (ageGroup a))) "First_Sex_Age" (Val.num f))
        "HPV_Exposure_Duration" (Val.num (a - f))) "Pregnancy_Density" with
    | false => rfl
    | true =>
      have hm := (hasCol_iff_mem _ _).mp hcase
      rw [e3] at hm
      rcases List.mem_append.mp hm with hin | hin
      · rcases List.mem_append.mp hin with hin2 | hin2
        · rcases List.mem_append.mp hin2 with hin3 | hin3
          · exact absurd hin3 hPD
          · exact absurd hin3 (by decide)
        · exact absurd hin2 (by decide)
      · exact absurd hin (by decide)
  have e4 := map_fst_setCol_not_has _ "Pregnancy_Density"
    (Val.num (p / clipLower (a - 12) 1)) hasPD
  rw [e3] at e4
  rw [e4]
  simp [derived_names]

/-! ### Error propagation and inversion for `perform_feature_engineering` -/

theorem perform_eq_error_age (df : DataRow) (e : PdError)
    (hA : getNum df "Age" = .error e) :
    perform_feature_engineering df = .error e := by
  unfold perform_feature_engineering
  rw [hA]

theorem perform_eq_error_fsx (df : DataRow) (a : ℚ) (e : PdError)
    (hA : getNum df "Age" = .ok a)
    (hF : getNum df "First sexual intercourse" = .error e) :
    perform_feature_engineering df = .error e := by
  unfold perform_feature_engineering
  rw [hA]
  simp only []
  rw [getNum_setCol_ne _ _ _ _ (by decide), hF]

theorem perform_eq_error_pregs (df : DataRow) (a f : ℚ) (e : PdError)
    (hA : getNum df "Age" = .ok a)
    (hF : getNum df "First sexual intercourse" = .ok f)
    (hP : getNum df "Num of pregnancies" = .error e) :
    perform_feature_engineering df = .error e := by
  have h1 : getNum (setCol df "Age_Group" (Val.cat (ageGroup a)))
      "First sexual intercourse" = .ok f := by
    rw [getNum_setCol_ne _ _ _ _ (by decide)]; exact hF
  have h2 : getNum (setCol (setCol df "Age_Group" (Val.cat (ageGroup a)))
      "First_Sex_Age" (Val.num f)) "Age" = .ok a := by
    rw [getNum_setCol_ne _ _ _ _ (by decide),
        getNum_setCol_ne _ _ _ _ (by decide)]; exact hA
  have h3 : getNum (setCol (setCol df "Age_Group" (Val.cat (ageGroup a)))
      "First_Sex_Age" (Val.num f)) "First sexual intercourse" = .ok f := by
    rw [getNum_setCol_ne _ _ _ _ (by decide)]; exact h1
  have h4 : getNum (setCol (setCol (setCol df "Age_Group" (Val.cat (ageGroup a)))
      "First_Sex_Age" (Val.num f)) "HPV_Exposure_Duration" (Val.num (a - f)))
      "Num of pregnancies" = .error e := by
    rw [getNum_setCol_ne _ _ _ _ (by decide),
        getNum_setCol_ne _ _ _ _ (by decide),
        getNum_setCol_ne _ _ _ _ (by decide)]; exact hP
  unfold perform_feature_engineering
  rw [hA]
  simp only []
  rw [h1]
  simp only []
  rw [h2, h3]
  simp only []
  rw [h4]

theorem perform_ok_inv (df : DataRow) (r : DataRow)
    (h : perform_feature_engineering df = .ok r) :
    ∃ a f p, getNum df "Age" = .ok a ∧
      getNum df "First sexual intercourse" = .ok f ∧
      getNum df "Num of pregnancies" = .ok p ∧
      r = engineer df a f p := by
  cases hA : getNum df "Age" with
  | error e => rw [perform_eq_error_age df e hA] at h; cases h
  | ok a =>
    cases hF : getNum df "First sexual intercourse" with
    | error e => rw [perform_eq_error_fsx df a e hA hF] at h; cases h
    | ok f =>
      cases hP : getNum df "Num of pregnancies" with
      | error e => rw [perform_eq_error_pregs df a f e hA hF hP] at h; cases h
      | ok p =>
        rw [perform_spec df a f p hA hF hP] at h
        injection h with h
        exact ⟨a, f, p, rfl, rfl, rfl, h.symm⟩

/-! ### Arithmetic facts about the age buckets -/

theorem ageGroup_teen (a : ℚ) (h0 : 0 < a) (h : a ≤ 20) :
    ageGroup a = some "Teen" := by
  unfold ageGroup
  rw [if_pos ⟨h0, h⟩]

theorem ageGroup_twenties (a : ℚ) (h1 : 20 < a) (h2 : a ≤ 30) :
    ageGroup a = some "20s" := by
  unfold ageGroup
  rw [if_neg (fun hc => absurd hc.2 (not_le.mpr h1)), if_pos ⟨h1, h2⟩]

theorem ageGroup_thirties (a : ℚ) (h1 : 30 < a) (h2 : a ≤ 40) :
    ageGroup a = some "30s" := by
  unfold ageGroup
  rw [if_neg (fun hc => absurd hc.2 (not_le.mpr (by linarith))),
      if_neg (fun hc => absurd hc.2 (not_le.mpr h1)), if_pos ⟨h1, h2⟩]

theorem ageGroup_forties (a : ℚ) (h1 : 40 < a) (h2 : a ≤ 50) :
    ageGroup a = some "40s" := by
  unfold ageGroup
  rw [if_neg (fun hc => absurd hc.2 (not_le.mpr (by linarith))),
      if_neg (fun hc => absurd hc.2 (not_le.mpr (by linarith))),
      if_neg (fun hc => absurd hc.2 (not_le.mpr h1)), if_pos ⟨h1, h2⟩]

theorem ageGroup_fifty_plus (a : ℚ) (h1 : 50 < a) (h2 : a ≤ 100) :
    ageGroup a = some "50+" := by
  unfold ageGroup
  rw [if_neg (fun hc => absurd hc.2 (not_le.mpr (by linarith))),
      if_neg (fun hc => absurd hc.2 (not_le.mpr (by linarith))),
      if_neg (fun hc => absurd hc.2 (not_le.mpr (by linarith))),
      if_neg (fun hc => absurd hc.2 (not_le.mpr h1)), if_pos ⟨h1, h2⟩]

theorem ageGroup_out_of_range (a : ℚ) (h : a ≤ 0 ∨ 100 < a) :
    ageGroup a = none := by
  rcases h with h | h
  · unfold ageGroup
    rw [if_neg (fun hc => absurd hc.1 (not_lt.mpr h)),
        if_neg (fun hc => absurd hc.1 (not_lt.mpr (by linarith))),
        if_neg (fun hc => absurd hc.1 (not_lt.mpr (by linarith))),
        if_neg (fun hc => absurd hc.1 (not_lt.mpr (by linarith))),
        if_neg (fun hc => absurd hc.1 (not_lt.mpr (by linarith)))]
  · unfold ageGroup
    rw [if_neg (fun hc => absurd hc.2 (not_le.mpr (by linarith))),
        if_neg (fun hc => absurd hc.2 (not_le.mpr (by linarith))),
        if_neg (fun hc => absurd hc.2 (not_le.mpr (by linarith))),
        if_neg (fun hc => absurd hc.2 (not_le.mpr (by linarith))),
        if_neg (fun hc => absurd hc.2 (not_le.mpr h))]

/-! ### Claims -/

/-- C2: for an input record with numeric `Age` (= `a`), `First sexual
intercourse` and `Num of pregnancies` (= `p`), feature engineering succeeds
and the derived `Pregnancy_Density` column equals
`p / max (a - 12) 1`; the denominator is never less than 1 (for ages 10, 12
and 13 it is 1 and for age 20 it is 8), so the division is never by zero or
by a negative number. -/
theorem C2_pregnancy_density (df : DataRow) (a f p : ℚ)
    (hA : getNum df "Age" = .ok a)
    (hF : getNum df "First sexual intercourse" = .ok f)
    (hP : getNum df "Num of pregnancies" = .ok p) :
    ∃ r, perform_feature_engineering df = .ok r ∧
      getCol r "Pregnancy_Density" = .ok (Val.num (p / clipLower (a - 12) 1)) ∧
      1 ≤ clipLower (a - 12) 1 ∧
      clipLower ((10 : ℚ) - 12) 1 = 1 ∧ clipLower ((12 : ℚ) - 12) 1 = 1 ∧
      clipLower ((13 : ℚ) - 12) 1 = 1 ∧ clipLower ((20 : ℚ) - 12) 1 = 8 :=
  ⟨engineer df a f p, perform_spec df a f p hA hF hP,
    getCol_engineer_density df a f p, le_max_right _ _,
    by norm_num [clipLower], by norm_num [clipLower], by norm_num [clipLower],
    by norm_num [clipLower]⟩

/-- Witness for C2: the form input with Age 20, First sexual intercourse 17
and Num of pregnancies 16 gives Pregnancy_Density 16 / 8 = 2. -/
theorem C2_pregnancy_density_witness :
    ∃ r, perform_feature_engineering (rawToDataRow (form_raw_input
        (fun n => if n = "Age" then 20 else if n = "Num of pregnancies" then 16
          else if n = "First sexual intercourse" then 17 else 0))) = .ok r ∧
      getCol r "Pregnancy_Density" = .ok (Val.num 2) := by
  obtain ⟨r, h1, h2, -⟩ := C2_pregnancy_density (rawToDataRow (form_raw_input
    (fun n => if n = "Age" then 20 else if n = "Num of pregnancies" then 16
      else if n = "First sexual intercourse" then 17 else 0))) 20 17 16 rfl rfl rfl
  refine ⟨r, h1, ?_⟩
  rw [h2]
  norm_num [clipLower]

/-- C3: for an input record with numeric fields and `0 < Age ≤ 100`, the
derived `Age_Group` column is the bucket of `Age` in the right-closed bins
`(0,20], (20,30], (30,40], (40,50], (50,100]` labeled
`Teen, 20s, 30s, 40s, 50+`. -/
theorem C3_age_group (df : DataRow) (a f p : ℚ)
    (hA : getNum df "Age" = .ok a)
    (hF : getNum df "First sexual intercourse" = .ok f)
    (hP : getNum df "Num of pregnancies" = .ok p)
    (h0 : 0 < a) (h100 : a ≤ 100) :
    ∃ r, perform_feature_engineering df = .ok r ∧
      (∃ lbl, getCol r "Age_Group" = .ok (Val.cat (some lbl))) ∧
      (a ≤ 20 → getCol r "Age_Group" = .ok (Val.cat (some "Teen"))) ∧
      (20 < a ∧ a ≤ 30 → getCol r "Age_Group" = .ok (Val.cat (some "20s"))) ∧
      (30 < a ∧ a ≤ 40 → getCol r "Age_Group" = .ok (Val.cat (some "30s"))) ∧
      (40 < a ∧ a ≤ 50 → getCol r "Age_Group" = .ok (Val.cat (some "40s"))) ∧
      (50 < a → getCol r "Age_Group" = .ok (Val.cat (some "50+"))) := by
  refine ⟨engineer df a f p, perform_spec df a f p hA hF hP, ?_, ?_, ?_, ?_, ?_, ?_⟩
  · by_cases h20 : a ≤ 20
    · exact ⟨"Teen", by rw [getCol_engineer_age_group, ageGroup_teen a h0 h20]⟩
    · by_cases h30 : a ≤ 30
      · exact ⟨"20s", by
          rw [getCol_engineer_age_group, ageGroup_twenties a (not_le.mp h20) h30]⟩
      · by_cases h40 : a ≤ 40
        · exact ⟨"30s", by
            rw [getCol_engineer_age_group, ageGroup_thirties a (not_le.mp h30) h40]⟩
        · by_cases h50 : a ≤ 50
          · exact ⟨"40s", by
              rw [getCol_engineer_age_group, ageGroup_forties a (not_le.mp h40) h50]⟩
          · exact ⟨"50+", by
              rw [getCol_engineer_age_group,
                  ageGroup_fifty_plus a (not_le.mp h50) h100]⟩
  · intro h20
    rw [getCol_engineer_age_group, ageGroup_teen a h0 h20]
  · rintro ⟨h1, h2⟩
    rw [getCol_engineer_age_group, ageGroup_twenties a h1 h2]
  · rintro ⟨h1, h2⟩
    rw [getCol_engineer_age_group, ageGroup_thirties a h1 h2]
  · rintro ⟨h1, h2⟩
    rw [getCol_engineer_age_group, ageGroup_forties a h1 h2]
  · intro h50
    rw [getCol_engineer_age_group, ageGroup_fifty_plus a h50 h100]

/-- Witness for C3: the form input with Age 25 lands in the `20s` bucket. -/
theorem C3_age_group_witness :
    ∃ r, perform_feature_engineering (rawToDataRow (form_raw_input
        (fun n => if n = "Age" then 25 else 0))) = .ok r ∧
      getCol r "Age_Group" = .ok (Val.cat (some "20s")) := by
  obtain ⟨r, h1, -, -, h2, -, -, -⟩ :=
    C3_age_group (rawToDataRow (form_raw_input (fun n => if n = "Age" then 25 else 0)))
      25 0 0 rfl rfl rfl (by norm_num) (by norm_num)
  exact ⟨r, h1, h2 ⟨by norm_num, by norm_num⟩⟩

/-- C4: for an input record with numeric `Age` (= `a`) and `First sexual
intercourse` (= `f`), the derived `HPV_Exposure_Duration` column equals
`a - f` with no clamping, and is negative whenever `f` exceeds `a`. -/
theorem C4_hpv_duration (df : DataRow) (a f p : ℚ)
    (hA : getNum df "Age" = .ok a)
    (hF : getNum df "First sexual intercourse" = .ok f)
    (hP : getNum df "Num of pregnancies" = .ok p) :
    ∃ r, perform_feature_engineering df = .ok r ∧
      getCol r "HPV_Exposure_Duration" = .ok (Val.num (a - f)) ∧
      (a < f → a - f < 0) :=
  ⟨engineer df a f p, perform_spec df a f p hA hF hP,
    getCol_engineer_hpv df a f p, fun h => by linarith⟩

/-- Witness for C4: Age 28 with First sexual intercourse 17 gives duration
11; Age 15 with First sexual intercourse 20 gives the negative duration -5. -/
theorem C4_hpv_duration_witness :
    (∃ r, perform_feature_engineering (rawToDataRow (form_raw_input
        (fun n => if n = "Age" then 28
          else if n = "First sexual intercourse" then 17 else 0))) = .ok r ∧
      getCol r "HPV_Exposure_Duration" = .ok (Val.num 11)) ∧
    (∃ r, perform_feature_engineering (rawToDataRow (form_raw_input
        (fun n => if n = "Age" then 15
          else if n = "First sexual intercourse" then 20 else 0))) = .ok r ∧
      getCol r "HPV_Exposure_Duration" = .ok (Val.num (-5))) := by
  constructor
  · obtain ⟨r, h1, h2, -⟩ := C4_hpv_duration (rawToDataRow (form_raw_input
      (fun n => if n = "Age" then 28
        else if n = "First sexual intercourse" then 17 else 0))) 28 17 0 rfl rfl rfl
    refine ⟨r, h1, ?_⟩
    rw [h2]
    norm_num
  · obtain ⟨r, h1, h2, -⟩ := C4_hpv_duration (rawToDataRow (form_raw_input
      (fun n => if n = "Age" then 15
        else if n = "First sexual intercourse" then 20 else 0))) 15 20 0 rfl rfl rfl
    refine ⟨r, h1, ?_⟩
    rw [h2]
    norm_num

/-- C9: for an input record with numeric fields whose `Age` is ≤ 0 or > 100
(as with the form's default 0.0 values), feature engineering raises no error
and the returned record's `Age_Group` is the missing (NaN) category, not one
of the five labels. -/
theorem C9_age_out_of_domain (df : DataRow) (a f p : ℚ)
    (hA : getNum df "Age" = .ok a)
    (hF : getNum df "First sexual intercourse" = .ok f)
    (hP : getNum df "Num of pregnancies" = .ok p)
    (h : a ≤ 0 ∨ 100 < a) :
    ∃ r, perform_feature_engineering df = .ok r ∧
      getCol r "Age_Group" = .ok (Val.cat none) :=
  ⟨engineer df a f p, perform_spec df a f p hA hF hP,
    by rw [getCol_engineer_age_group, ageGroup_out_of_range a h]⟩

/-- Witness for C9: the all-defaults form (every field 0.0) engineers
without error and its Age_Group is the missing category. -/
theorem C9_age_out_of_domain_witness :
    ∃ r, perform_feature_engineering (rawToDataRow (form_raw_input zeroVals)) =
        .ok r ∧
      getCol r "Age_Group" = .ok (Val.cat none) :=
  C9_age_out_of_domain _ 0 0 0 rfl rfl rfl (Or.inl le_rfl)

theorem getNum_rawToDataRow_mem (raw : List (String × ℚ)) (n : String)
    (h : n ∈ raw.map Prod.fst) :
    ∃ q, getNum (rawToDataRow raw) n = .ok q := by
  induction raw with
  | nil => cases h
  | cons p t ih =>
    by_cases hp : p.1 = n
    · exact ⟨p.2, by simp [rawToDataRow, getNum, getCol, hp]⟩
    · have hmem : n ∈ t.map Prod.fst := by
        rw [List.map_cons] at h
        rcases List.mem_cons.mp h with h1 | h1
        · exact absurd h1.symm hp
        · exact h1
      obtain ⟨q, hq⟩ := ih hmem
      refine ⟨q, ?_⟩
      simp only [rawToDataRow, List.map_cons] at hq ⊢
      simp only [getNum, getCol, hp, if_false] at hq ⊢
      exact hq

/-- C1 counterexample: the raw input `raw_with_extra` holds every required
raw column (in form order) plus the extra field `Extra`, which is not in
`required_columns`; `build` succeeds and the extra field is still present in
the output record, so extras are not dropped. -/
theorem C1_counterexample :
    ∃ r, build raw_with_extra = .ok r ∧ "Extra" ∈ r.map Prod.fst ∧
      "Extra" ∉ required_columns :=
  ⟨_, rfl, by decide, by decide⟩

/-- C1 amended: when the raw input consists of exactly the required raw
columns in form order, `build` returns a record whose column order is
`required_columns` (the raw columns followed by the four derived columns);
an extra raw-input field is retained in the output record, not dropped. -/
theorem C1_column_order (vals : String → ℚ) :
    (∃ r, build (form_raw_input vals) = .ok r ∧
      r.map Prod.fst = required_columns) ∧
    (∀ raw : List (String × ℚ), ∀ r, build raw = .ok r →
      ∀ n, n ∈ raw.map Prod.fst → n ∈ r.map Prod.fst) := by
  constructor
  · exact ⟨form_engineered vals, rfl, rfl⟩
  · intro raw r h n hn
    obtain ⟨a, f, p, -, -, -, hr⟩ := perform_ok_inv (rawToDataRow raw) r h
    subst hr
    apply mem_map_fst_engineer
    rw [map_fst_rawToDataRow]
    exact hn

/-- Witness for C1 (amended): the all-defaults form input yields the
`required_columns` order, and the extra field of `raw_with_extra` is
retained. -/
theorem C1_column_order_witness :
    ∃ r, build (form_raw_input zeroVals) = .ok r ∧
      r.map Prod.fst = required_columns ∧ "Age" ∈ r.map Prod.fst := by
  obtain ⟨r, h1, h2⟩ := (C1_column_order zeroVals).1
  exact ⟨r, h1, h2, (C1_column_order zeroVals).2 _ r h1 "Age" (by decide)⟩

/-- C5 counterexample: the raw input `raw_missing_smokes` omits the required
raw column `Smokes`, yet `build` succeeds and returns a record (with no
error), so a missing required raw field does not generally fail. -/
theorem C5_counterexample :
    ∃ r, build raw_missing_smokes = .ok r ∧
      "Smokes" ∈ input_feature_list ∧
      "Smokes" ∉ raw_missing_smokes.map Prod.fst :=
  ⟨_, rfl, by decide, by decide⟩

/-- C5 amended: `build` fails, with a `KeyError` naming the column and no
record returned, exactly when one of the three columns feature engineering
reads is missing — `Age` missing fails naming `Age`; `Age` present but
`First sexual intercourse` missing fails naming it; those two present but
`Num of pregnancies` missing fails naming it; when all three are present
`build` succeeds, so any other missing required raw field (such as `Smokes`)
is not detected. -/
theorem C5_missing_feature :
    (∀ raw : List (String × ℚ), "Age" ∉ raw.map Prod.fst →
      build raw = .error (.keyError "Age")) ∧
    (∀ raw : List (String × ℚ), "Age" ∈ raw.map Prod.fst →
      "First sexual intercourse" ∉ raw.map Prod.fst →
      build raw = .error (.keyError "First sexual intercourse")) ∧
    (∀ raw : List (String × ℚ), "Age" ∈ raw.map Prod.fst →
      "First sexual intercourse" ∈ raw.map Prod.fst →
      "Num of pregnancies" ∉ raw.map Prod.fst →
      build raw = .error (.keyError "Num of pregnancies")) ∧
    (∀ raw : List (String × ℚ), "Age" ∈ raw.map Prod.fst →
      "First sexual intercourse" ∈ raw.map Prod.fst →
      "Num of pregnancies" ∈ raw.map Prod.fst →
      ∃ r, build raw = .ok r) := by
  refine ⟨?_, ?_, ?_, ?_⟩
  · intro raw h
    exact perform_eq_error_age _ _
      (getNum_of_not_mem _ _ (by rw [map_fst_rawToDataRow]; exact h))
  · intro raw hA hF
    obtain ⟨a, ha⟩ := getNum_rawToDataRow_mem raw "Age" hA
    exact perform_eq_error_fsx _ a _ ha
      (getNum_of_not_mem _ _ (by rw [map_fst_rawToDataRow]; exact hF))
  · intro raw hA hF hP
    obtain ⟨a, ha⟩ := getNum_rawToDataRow_mem raw "Age" hA
    obtain ⟨f, hf⟩ := getNum_rawToDataRow_mem raw "First sexual intercourse" hF
    exact perform_eq_error_pregs _ a f _ ha hf
      (getNum_of_not_mem _ _ (by rw [map_fst_rawToDataRow]; exact hP))
  · intro raw hA hF hP
    obtain ⟨a, ha⟩ := getNum_rawToDataRow_mem raw "Age" hA
    obtain ⟨f, hf⟩ := getNum_rawToDataRow_mem raw "First sexual intercourse" hF
    obtain ⟨p, hp⟩ := getNum_rawToDataRow_mem raw "Num of pregnancies" hP
    exact ⟨_, perform_spec _ a f p ha hf hp⟩

/-- Witness for C5 (amended): omitting `Age` fails naming `Age`; omitting
only `First sexual intercourse` or only `Num of pregnancies` fails naming
them; omitting only `Smokes` succeeds. -/
theorem C5_missing_feature_witness :
    build [] = .error (.keyError "Age") ∧
    build [("Age", 30)] = .error (.keyError "First sexual intercourse") ∧
    build [("Age", 30), ("First sexual intercourse", 16)] =
      .error (.keyError "Num of pregnancies") ∧
    (∃ r, build raw_missing_smokes = .ok r) :=
  ⟨C5_missing_feature.1 [] (by decide),
   C5_missing_feature.2.1 [("Age", 30)] (by decide) (by decide),
   C5_missing_feature.2.2.1 [("Age", 30), ("First sexual intercourse", 16)]
     (by decide) (by decide) (by decide),
   C5_missing_feature.2.2.2 raw_missing_smokes (by decide) (by decide)
     (by decide)⟩

/-- C10 counterexample: on an input frame that already has a (numeric)
column named `Age_Group`, feature engineering overwrites it — the original
column's value (5) does not appear unchanged in the returned record (it
becomes the `20s` category), refuting "every original input column appears
in the returned record with its value unchanged". -/
theorem C10_counterexample :
    getCol df_age_group_clash "Age_Group" = .ok (Val.num 5) ∧
    ∃ r, perform_feature_engineering df_age_group_clash = .ok r ∧
      getCol r "Age_Group" = .ok (Val.cat (some "20s")) :=
  ⟨rfl, _, rfl, rfl⟩

/-- C10 amended: the embedding of `perform_feature_engineering` is a pure
function of its input (the code works on `df.copy()`, so the argument frame
is never mutated); provided the input has none of the four derived column
names, every original column appears in the returned record with its value
unchanged and the output columns are exactly the input columns followed by
the four derived names.  (An input column that collides with a derived name
is instead overwritten in the output.) -/
theorem C10_no_mutation (df : DataRow) (a f p : ℚ)
    (hA : getNum df "Age" = .ok a)
    (hF : getNum df "First sexual intercourse" = .ok f)
    (hP : getNum df "Num of pregnancies" = .ok p)
    (hfresh : ∀ m ∈ derived_names, m ∉ df.map Prod.fst) :
    ∃ r, perform_feature_engineering df = .ok r ∧
      (∀ n, n ∉ derived_names → getCol r n = getCol df n) ∧
      r.map Prod.fst = df.map Prod.fst ++ derived_names :=
  ⟨engineer df a f p, perform_spec df a f p hA hF hP,
    fun n hn => getCol_engineer_of_not_derived df a f p n hn,
    map_fst_engineer_fresh df a f p hfresh⟩

/-- Witness for C10 (amended) at the all-defaults form frame: the `Smokes`
column is unchanged and the output columns are the inputs plus the four
derived names. -/
theorem C10_no_mutation_witness :
    ∃ r, perform_feature_engineering (rawToDataRow (form_raw_input zeroVals)) =
        .ok r ∧
      getCol r "Smokes" = getCol (rawToDataRow (form_raw_input zeroVals))
        "Smokes" ∧
      r.map Prod.fst =
        (rawToDataRow (form_raw_input zeroVals)).map Prod.fst ++ derived_names := by
  obtain ⟨r, h1, h2, h3⟩ := C10_no_mutation (rawToDataRow (form_raw_input zeroVals))
    0 0 0 rfl rfl rfl (by decide)
  exact ⟨r, h1, h2 "Smokes" (by decide), h3⟩

/-- C6: loading a path that does not exist on disk returns no artifact
handle and displays exactly the two error messages, the first naming the
missing path; and with the configured model file absent, a form submission
is processed without crashing but produces no prediction. -/
theorem C6_artifact_not_found :
    (∀ fs : FileSystem, ∀ filepath : String,
      fs filepath = .error .fileNotFound →
      load_pipeline fs filepath =
        (none, [msg_not_found filepath, msg_check_root])) ∧
    (∀ fs : FileSystem, fs PIPELINE_FILEPATH = .error .fileNotFound →
      ∀ vals : String → ℚ,
        (processSubmit fs emptyCache vals).1 = .ok none) := by
  constructor
  · intro fs filepath h
    unfold load_pipeline
    rw [h]
  · intro fs h vals
    have hload : load_pipeline fs PIPELINE_FILEPATH =
        (none, [msg_not_found PIPELINE_FILEPATH, msg_check_root]) := by
      unfold load_pipeline
      rw [h]
    unfold processSubmit cached_load_pipeline
    have hmiss : lookupCache emptyCache.entries PIPELINE_FILEPATH = none := rfl
    rw [hmiss]
    simp only [hload]

/-- Witness for C6: a disk with no files at all. -/
theorem C6_artifact_not_found_witness :
    load_pipeline (fun _ => .error .fileNotFound) "missing.pkl" =
      (none, [msg_not_found "missing.pkl", msg_check_root]) ∧
    (processSubmit (fun _ => .error .fileNotFound) emptyCache zeroVals).1 =
      .ok none :=
  ⟨C6_artifact_not_found.1 (fun _ => .error .fileNotFound) "missing.pkl" rfl,
   C6_artifact_not_found.2 (fun _ => .error .fileNotFound) rfl zeroVals⟩

theorem repeatLoads_cached (fs : FileSystem) (filepath : String)
    (s : CacheState) (r0 : Option Pipeline × List String)
    (h : lookupCache s.entries filepath = some r0) (k : Nat) :
    repeatLoads fs filepath s k = (List.replicate k r0, s) := by
  induction k with
  | zero => rfl
  | succ k ih =>
    show (let rs := cached_load_pipeline fs s filepath
          let rest := repeatLoads fs filepath rs.2 k
          (rs.1 :: rest.1, rest.2)) = _
    have hc : cached_load_pipeline fs s filepath = (r0, s) := by
      unfold cached_load_pipeline
      rw [h]
    rw [hc]
    simp only [ih, List.replicate]

/-- C7: starting from a fresh process, any number `n ≥ 1` of calls to the
cached artifact loader with the same path deserializes the file exactly once
(the load counter ends at 1), and every call returns the same handle the
single real load produced. -/
theorem C7_single_load (fs : FileSystem) (filepath : String) (n : Nat)
    (h : 1 ≤ n) :
    (repeatLoads fs filepath emptyCache n).2.loads = 1 ∧
    ∀ r ∈ (repeatLoads fs filepath emptyCache n).1,
      r = load_pipeline fs filepath := by
  obtain ⟨m, rfl⟩ : ∃ m, n = m + 1 := ⟨n - 1, by omega⟩
  have hmiss : lookupCache emptyCache.entries filepath = none := rfl
  have hfirst : cached_load_pipeline fs emptyCache filepath =
      (load_pipeline fs filepath,
       ⟨[(filepath, load_pipeline fs filepath)], 1⟩) := by
    unfold cached_load_pipeline
    rw [hmiss]
    rfl
  have hhit : lookupCache
      ((⟨[(filepath, load_pipeline fs filepath)], 1⟩ : CacheState)).entries
      filepath = some (load_pipeline fs filepath) := by
    show lookupCache [(filepath, load_pipeline fs filepath)] filepath = _
    unfold lookupCache
    rw [if_pos rfl]
  have hrest := repeatLoads_cached fs filepath
    ⟨[(filepath, load_pipeline fs filepath)], 1⟩
    (load_pipeline fs filepath) hhit m
  have hstep : repeatLoads fs filepath emptyCache (m + 1) =
      (load_pipeline fs filepath ::
        List.replicate m (load_pipeline fs filepath),
       ⟨[(filepath, load_pipeline fs filepath)], 1⟩) := by
    show (let rs := cached_load_pipeline fs emptyCache filepath
          let rest := repeatLoads fs filepath rs.2 m
          (rs.1 :: rest.1, rest.2)) = _
    rw [hfirst]
    simp only [hrest]
  rw [hstep]
  refine ⟨rfl, ?_⟩
  intro r hr
  rcases List.mem_cons.mp hr with h1 | h1
  · exact h1
  · exact List.eq_of_mem_replicate h1

/-- Witness for C7: two calls on an (empty) disk still load only once and
agree. -/
theorem C7_single_load_witness :
    (repeatLoads (fun _ => .error .fileNotFound) "m.pkl" emptyCache 2).2.loads
        = 1 ∧
    ∀ r ∈ (repeatLoads (fun _ => .error .fileNotFound) "m.pkl" emptyCache 2).1,
      r = load_pipeline (fun _ => .error .fileNotFound) "m.pkl" :=
  C7_single_load (fun _ => .error .fileNotFound) "m.pkl" 2 (by norm_num)

/-- C8: with the artifact already loaded (cached as `p`) and a fixed form
input, two consecutive submissions return identical results — the same class
label and the same probability pair, namely `p.predict` and
`p.predict_proba` on the engineered record — and leave the process state
unchanged. -/
theorem C8_deterministic (fs : FileSystem) (s : CacheState) (p : Pipeline)
    (msgs : List String) (vals : String → ℚ)
    (h : lookupCache s.entries PIPELINE_FILEPATH = some (some p, msgs)) :
    (processSubmit fs s vals).1 =
      (processSubmit fs (processSubmit fs s vals).2 vals).1 ∧
    (processSubmit fs s vals).2 = s ∧
    (processSubmit fs s vals).1 =
      .ok (some (p.predict (form_engineered vals),
        p.predict_proba (form_engineered vals))) := by
  have hc : cached_load_pipeline fs s PIPELINE_FILEPATH = ((some p, msgs), s) := by
    unfold cached_load_pipeline
    rw [h]
  have hbuild : build (form_raw_input vals) = .ok (form_engineered vals) := rfl
  have hps : processSubmit fs s vals =
      (.ok (some (p.predict (form_engineered vals),
        p.predict_proba (form_engineered vals))), s) := by
    unfold processSubmit
    rw [hc]
    simp only [hbuild]
  rw [hps]
  exact ⟨by rw [hps], rfl, rfl⟩

/-- Witness for C8: a cached constant pipeline and the all-defaults form. -/
theorem C8_deterministic_witness :
    (processSubmit (fun _ => .error .fileNotFound)
        ⟨[(PIPELINE_FILEPATH, (some constPipeline, []))], 1⟩ zeroVals).1 =
      (processSubmit (fun _ => .error .fileNotFound)
        (processSubmit (fun _ => .error .fileNotFound)
          ⟨[(PIPELINE_FILEPATH, (some constPipeline, []))], 1⟩ zeroVals).2
        zeroVals).1 ∧
    (processSubmit (fun _ => .error .fileNotFound)
        ⟨[(PIPELINE_FILEPATH, (some constPipeline, []))], 1⟩ zeroVals).2 =
      (⟨[(PIPELINE_FILEPATH, (some constPipeline, []))], 1⟩ : CacheState) ∧
    (processSubmit (fun _ => .error .fileNotFound)
        ⟨[(PIPELINE_FILEPATH, (some constPipeline, []))], 1⟩ zeroVals).1 =
      .ok (some (constPipeline.predict (form_engineered zeroVals),
        constPipeline.predict_proba (form_engineered zeroVals))) :=
  C8_deterministic (fun _ => .error .fileNotFound)
    ⟨[(PIPELINE_FILEPATH, (some constPipeline, []))], 1⟩ constPipeline []
    zeroVals rfl
